import Mathlib

/-!
Verification of the legal-Claims-System core (src/main/models.py and the
bulk-import routine src/main/views/data_views.py) against its
natural-language specification.

The Python code is shallowly embedded:

* Django model rows become Lean structures; the database table of each model
  is a `List` of rows with the MOST RECENTLY INSERTED row at the HEAD, so that
  `Model.objects.order_by(-id).first()` is `List.head?`.
* `DecimalField` monetary values are embedded as `Option Rat` (a nullable
  exact decimal); Python truthiness of a nullable decimal is
  `none`/`some 0 => false`.
* Python `int(s)` is embedded as `pyInt` returning `Option Int` (`none` models
  a raised `ValueError`); methods that can raise return `Except String`.
* Python decimal rendering `f-strings` with `%0wd` padding are embedded by
  `pyZeroPad`/`natDigits`.

Each claim of the specification is settled by one theorem near the end of the
file.
-/

/-- One decimal digit rendered as a character, for digits below 10 this is
`0'..'9` (embeds Python decimal rendering digit by digit). -/
def digitCh (n : Nat) : Char := Nat.digitChar n

/-- Fuel-driven decimal rendering loop (structural recursion so the kernel
can evaluate it); `fuel > n` always suffices. -/
def natDigitsGo : Nat → Nat → List Char
  | 0, _ => []
  | fuel + 1, n =>
    if n < 10 then [digitCh n]
    else natDigitsGo fuel (n / 10) ++ [digitCh (n % 10)]

/-- Decimal rendering of a natural number, most significant digit first:
the char-list body of Python `str(n)` / `f-string` rendering for `n ≥ 0`. -/
def natDigits (n : Nat) : List Char := natDigitsGo (n + 1) n

theorem natDigitsGo_congr (n : Nat) :
    ∀ f1 f2, n < f1 → n < f2 → natDigitsGo f1 n = natDigitsGo f2 n := by
  induction n using Nat.strong_induction_on with
  | _ n ih =>
    intro f1 f2 h1 h2
    cases f1 with
    | zero => omega
    | succ g1 =>
      cases f2 with
      | zero => omega
      | succ g2 =>
        simp only [natDigitsGo]
        split
        · rfl
        · next h =>
          rw [ih (n / 10) (Nat.div_lt_self (by omega) (by omega)) g1 g2
            (by omega) (by omega)]

/-- The recursive unfolding of `natDigits`. -/
theorem natDigits_eq (n : Nat) :
    natDigits n = if n < 10 then [digitCh n]
      else natDigits (n / 10) ++ [digitCh (n % 10)] := by
  show natDigitsGo (n + 1) n = _
  cases hn : decide (n < 10) with
  | true =>
    have h : n < 10 := of_decide_eq_true hn
    simp only [natDigitsGo, if_pos h]
  | false =>
    have h : ¬ n < 10 := of_decide_eq_false hn
    simp only [natDigitsGo, if_neg h]
    rw [natDigitsGo_congr (n / 10) n (n / 10 + 1)
      (Nat.div_lt_self (by omega) (by omega)) (by omega)]
    rfl

/-- Left-pad a digit body with the character zero up to width `w`
(the `{:0wd}` format specifier body). -/
def padZeros (w : Nat) (cs : List Char) : List Char :=
  List.replicate (w - cs.length) '0' ++ cs

/-- Python `f-string` `{n:0wd}` rendering for an integer `n`. -/
def pyZeroPad (w : Nat) (n : Int) : List Char :=
  if n < 0 then '-' :: padZeros (w - 1) (natDigits n.natAbs)
  else padZeros w (natDigits n.toNat)

/-- Python `str(n)` for an integer. -/
def intStr (n : Int) : String :=
  if n < 0 then String.mk ('-' :: natDigits n.natAbs)
  else String.mk (natDigits n.toNat)

/-- One step of reading a decimal digit string back into a number. -/
def foldStep (a : Nat) (c : Char) : Nat := a * 10 + (c.toNat - 48)

/-- Read a digit string back into a number (value of `int(s)` on an all-digit
string). -/
def foldDigits (cs : List Char) : Nat := cs.foldl foldStep 0

/-- Parse a nonempty all-digit character list, the unsigned body of Python
`int(s)`; `none` models a raised `ValueError`. -/
def parseNatDigits (cs : List Char) : Option Nat :=
  if cs ≠ [] ∧ cs.all Char.isDigit then some (foldDigits cs) else none

/-- Strip leading and trailing whitespace (Python `int` ignores surrounding
whitespace; also embeds `str.strip()`). -/
def pyTrim (cs : List Char) : List Char :=
  ((cs.dropWhile Char.isWhitespace).reverse.dropWhile Char.isWhitespace).reverse

/-- Signed integer parsing on a character list after stripping. -/
def pyIntChars : List Char → Option Int
  | [] => none
  | c :: rest =>
    if c = '-' then (parseNatDigits rest).map (fun n => -(n : Int))
    else if c = '+' then (parseNatDigits rest).map (fun n => ((n : Nat) : Int))
    else (parseNatDigits (c :: rest)).map (fun n => ((n : Nat) : Int))

/-- Python `int(s)`: `some k` when `int(s)` evaluates to `k`, `none` when it
raises `ValueError`. (The ASCII fragment of `int` is modelled: surrounding
whitespace, an optional sign and decimal digits.) -/
def pyInt (s : String) : Option Int := pyIntChars (pyTrim s.toList)

/-- Python string slicing `s[n:]`. -/
def pySlice (s : String) (n : Nat) : String := String.mk (s.toList.drop n)

/-- Python `str.strip()`. -/
def pyStrip (s : String) : String := String.mk (pyTrim s.toList)

/-- Worker for `pySplit`: accumulate the current piece (reversed). -/
def splitOnCharAux (sep : Char) : List Char → List Char → List (List Char)
  | [], acc => [acc.reverse]
  | c :: cs, acc =>
    if c = sep then acc.reverse :: splitOnCharAux sep cs []
    else splitOnCharAux sep cs (c :: acc)

/-- Python `s.split(sep)` for a one-character separator (empty pieces are
kept, the empty string splits to one empty piece). -/
def pySplit (s : String) (sep : Char) : List String :=
  (splitOnCharAux sep s.toList []).map String.mk

/-- Python `s.startswith(pre)`. -/
def pyStartsWith (s pre : String) : Bool := pre.toList.isPrefixOf s.toList

/-- Python `s.endswith(suf)`. -/
def pyEndsWith (s suf : String) : Bool :=
  suf.toList.reverse.isPrefixOf s.toList.reverse

/-- ASCII lower-casing of one character. -/
def asciiLower (c : Char) : Char :=
  if 65 ≤ c.toNat ∧ c.toNat ≤ 90 then Char.ofNat (c.toNat + 32) else c

/-- Python `s.lower()` (ASCII fragment). -/
def pyLower (s : String) : String := String.mk (s.toList.map asciiLower)

/-- ASCII upper-casing of one character. -/
def asciiUpper (c : Char) : Char :=
  if 97 ≤ c.toNat ∧ c.toNat ≤ 122 then Char.ofNat (c.toNat - 32) else c

/-- Python `s.upper()` (ASCII fragment). -/
def pyUpper (s : String) : String := String.mk (s.toList.map asciiUpper)

-- ---------------------------------------------------------------------------
-- Round-trip lemmas: rendering a number and parsing it back is the identity.
-- ---------------------------------------------------------------------------

theorem digitCh_toNat {n : Nat} (h : n < 10) : (digitCh n).toNat = 48 + n := by
  interval_cases n <;> rfl

theorem digitCh_isDigit {n : Nat} (h : n < 10) : (digitCh n).isDigit = true := by
  interval_cases n <;> rfl

theorem natDigits_ne_nil (n : Nat) : natDigits n ≠ [] := by
  rw [natDigits_eq]
  split <;> simp

theorem natDigits_all_digits (n : Nat) :
    ∀ c ∈ natDigits n, c.isDigit = true := by
  induction n using Nat.strong_induction_on with
  | _ n ih =>
    rw [natDigits_eq]
    split
    · next h => simpa using digitCh_isDigit h
    · next h =>
      intro c hc
      rcases List.mem_append.mp hc with h1 | h1
      · exact ih (n / 10) (Nat.div_lt_self (by omega) (by omega)) c h1
      · simp only [List.mem_singleton] at h1
        subst h1
        exact digitCh_isDigit (Nat.mod_lt _ (by omega))

theorem foldl_foldStep_natDigits (n : Nat) :
    ∀ acc : Nat, (natDigits n).foldl foldStep acc =
      acc * 10 ^ (natDigits n).length + n := by
  induction n using Nat.strong_induction_on with
  | _ n ih =>
    intro acc
    rw [natDigits_eq]
    split
    · next h =>
      simp [foldStep, digitCh_toNat h]
    · next h =>
      rw [List.foldl_append]
      rw [ih (n / 10) (Nat.div_lt_self (by omega) (by omega)) acc]
      have hm : n % 10 < 10 := Nat.mod_lt _ (by omega)
      simp only [List.foldl_cons, List.foldl_nil, List.length_append,
        List.length_singleton]
      rw [foldStep, digitCh_toNat hm]
      have hdm : 10 * (n / 10) + n % 10 = n := Nat.div_add_mod n 10
      have : (acc * 10 ^ (natDigits (n / 10)).length + n / 10) * 10 +
          (48 + n % 10 - 48) =
          acc * 10 ^ ((natDigits (n / 10)).length + 1) + (10 * (n / 10) + n % 10) := by
        rw [pow_succ]
        ring_nf
        omega
      rw [this, hdm]

theorem foldl_foldStep_zeros (j : Nat) :
    (List.replicate j '0').foldl foldStep 0 = 0 := by
  induction j with
  | zero => rfl
  | succ k ih => simpa [List.replicate_succ, foldStep] using ih

theorem foldDigits_padded (j n : Nat) :
    foldDigits (List.replicate j '0' ++ natDigits n) = n := by
  unfold foldDigits
  rw [List.foldl_append, foldl_foldStep_zeros, foldl_foldStep_natDigits]
  simp

theorem parseNatDigits_padded (j n : Nat) :
    parseNatDigits (List.replicate j '0' ++ natDigits n) = some n := by
  unfold parseNatDigits
  rw [if_pos, foldDigits_padded]
  constructor
  · simp [natDigits_ne_nil n]
  · rw [List.all_eq_true]
    intro c hc
    rcases List.mem_append.mp hc with h1 | h1
    · simp only [List.mem_replicate] at h1
      rw [h1.2]; rfl
    · exact natDigits_all_digits n c h1

theorem not_whitespace_of_isDigit {c : Char} (h : c.isDigit = true) :
    c.isWhitespace = false := by
  by_contra hw
  have hw' : c.isWhitespace = true := by
    cases hx : c.isWhitespace
    · exact absurd hx hw
    · rfl
  have hc : ((c = ' ' ∨ c = '\t') ∨ c = '\x0d') ∨ c = '\n' := by
    simpa [Char.isWhitespace, decide_eq_true_eq] using hw'
  rcases hc with ((rfl | rfl) | rfl) | rfl <;> exact absurd h (by decide)

theorem dropWhile_of_all_false {p : Char → Bool} (l : List Char)
    (h : ∀ c ∈ l, p c = false) : l.dropWhile p = l := by
  cases l with
  | nil => rfl
  | cons c cs => simp [List.dropWhile_cons, h c (by simp)]

theorem pyTrim_of_all_digits (l : List Char) (h : ∀ c ∈ l, c.isDigit = true) :
    pyTrim l = l := by
  unfold pyTrim
  rw [dropWhile_of_all_false l (fun c hc => not_whitespace_of_isDigit (h c hc))]
  rw [dropWhile_of_all_false l.reverse
    (fun c hc => not_whitespace_of_isDigit (h c (List.mem_reverse.mp hc)))]
  exact List.reverse_reverse l

theorem isDigit_ne_sign {c : Char} (h : c.isDigit = true) :
    c ≠ '-' ∧ c ≠ '+' := by
  constructor <;> rintro rfl <;> simp [Char.isDigit] at h

theorem pyInt_padded (j n : Nat) :
    pyInt (String.mk (List.replicate j '0' ++ natDigits n)) = some (n : Int) := by
  have hall : ∀ c ∈ List.replicate j '0' ++ natDigits n, c.isDigit = true := by
    intro c hc
    rcases List.mem_append.mp hc with h1 | h1
    · simp only [List.mem_replicate] at h1
      rw [h1.2]; rfl
    · exact natDigits_all_digits n c h1
  have hne : List.replicate j '0' ++ natDigits n ≠ [] := by
    simp [natDigits_ne_nil n]
  unfold pyInt
  have htl : (String.mk (List.replicate j '0' ++ natDigits n)).toList =
      List.replicate j '0' ++ natDigits n := rfl
  rw [htl, pyTrim_of_all_digits _ hall]
  obtain ⟨c, cs, hcons⟩ := List.exists_cons_of_ne_nil hne
  rw [hcons]
  have hc : c.isDigit = true := by
    apply hall; rw [hcons]; simp
  obtain ⟨hm, hp⟩ := isDigit_ne_sign hc
  rw [pyIntChars, if_neg hm, if_neg hp, ← hcons, parseNatDigits_padded]
  rfl

-- ---------------------------------------------------------------------------
-- Data model (src/main/models.py).
-- ---------------------------------------------------------------------------

/-- A persisted `Client` row. `pk` is the internal auto-increment identity
(`id`); `client_id` is the generated public identifier (CharField, empty
string when unset). -/
structure ClientRow where
  pk : Nat
  client_id : String
  name : String
deriving Repr, DecidableEq

/-- A persisted or in-memory `Shipment` row. Nullable fields are `Option`;
`DecimalField` values are `Option Rat`. The fields the model's `save` method
never reads or writes (timestamps) are omitted. -/
structure Shipment where
  Claim_No : String
  claim_id : Option String
  client_reference : Option String
  client : Option ClientRow
  Brand : String
  Claimant : String
  Branch : String
  Intent_To_Claim : String
  Intend_Claim_Date : Option (Nat × Nat × Nat)
  Formal_Claim_Received : String
  Formal_Claim_Date_Received : Option (Nat × Nat × Nat)
  Claimed_Amount : Option Rat
  Amount_Paid_By_Carrier : Option Rat
  Amount_Paid_By_Awa : Option Rat
  Amount_Paid_By_Insurance : Option Rat
  Total_Savings : Option Rat
  Financial_Exposure : Option Rat
  Settlement_Status : Option String
  Status : String
deriving DecidableEq

/-- A `Shipment` with every field absent or empty, used to build concrete
rows. -/
def emptyShipment : Shipment :=
  { Claim_No := "", claim_id := none, client_reference := none, client := none,
    Brand := "", Claimant := "", Branch := "", Intent_To_Claim := "",
    Intend_Claim_Date := none, Formal_Claim_Received := "",
    Formal_Claim_Date_Received := none, Claimed_Amount := none,
    Amount_Paid_By_Carrier := none, Amount_Paid_By_Awa := none,
    Amount_Paid_By_Insurance := none, Total_Savings := none,
    Financial_Exposure := none, Settlement_Status := none, Status := "OPEN" }

/-- Python truthiness of a nullable string field: `None` and the empty string
are falsy. -/
def optFalsy : Option String → Bool
  | none => true
  | some t => t == ""

/-- Python truthiness of a nullable decimal field: `None` and zero are
falsy. -/
def qtruthy : Option Rat → Bool
  | none => false
  | some q => decide (q ≠ 0)

/-- `Shipment.total_amount_paid` property: carrier + awa + insurance with
nulls treated as zero (`x or 0`). -/
def total_amount_paid (s : Shipment) : Rat :=
  s.Amount_Paid_By_Carrier.getD 0 + s.Amount_Paid_By_Awa.getD 0 +
    s.Amount_Paid_By_Insurance.getD 0

/-- `Shipment.outstanding_amount` property. -/
def outstanding_amount (s : Shipment) : Rat :=
  max 0 (s.Claimed_Amount.getD 0 - total_amount_paid s)

-- ---------------------------------------------------------------------------
-- Identifier allocators (ClientManager / ShipmentManager / Client).
-- Tables are lists with the most recently inserted row at the head, so
-- `order_by(-id).first()` is `List.head?`.
-- ---------------------------------------------------------------------------

/-- `ClientManager.get_next_client_id`. The unguarded `int(...)` call raises
`ValueError` when the stored identifier has no integer suffix; a raised
exception is an `Except.error`. -/
def get_next_client_id (db : List ClientRow) : Except String String :=
  match db.head? with
  | none => .ok "CL00001"
  | some last =>
    match pyInt (pySlice last.client_id 2) with
    | some lastId => .ok (String.mk ('C' :: 'L' :: pyZeroPad 5 (lastId + 1)))
    | none => .error "ValueError: invalid literal for int"

/-- `ShipmentManager.get_next_claim_id`. The `try`/`except` swallows the
parse failure, so this function is total and falls back to the base value. -/
def get_next_claim_id (db : List Shipment) : String :=
  match db.head? with
  | none => "CLM000001"
  | some last =>
    if optFalsy last.claim_id then "CLM000001"
    else
      match pyInt (pySlice (last.claim_id.getD "") 3) with
      | some lastId => String.mk ('C' :: 'L' :: 'M' :: pyZeroPad 6 (lastId + 1))
      | none => "CLM000001"

/-- The sanitized client name of `Client.get_next_client_reference`:
`re.sub` removing every character outside `[a-zA-Z0-9]`, then `[:15]`. -/
def cleanName (name : String) : String :=
  String.mk ((name.toList.filter Char.isAlphanum).take 15)

/-- The queryset filter of `get_next_client_reference`: same client, reference
starting with `{clean}-` and ending with `-{today}` (a NULL reference never
matches either pattern). -/
def refMatches (clean today : String) (pk : Nat) (sh : Shipment) : Bool :=
  (match sh.client with
   | some c => c.pk == pk
   | none => false)
  && pyStartsWith (sh.client_reference.getD "") (clean ++ "-")
  && pyEndsWith (sh.client_reference.getD "") ("-" ++ today)

/-- The early-break scan of `get_next_client_reference`: walk the matching
references newest first; on the first one that splits into at least three
`-`-separated parts whose second-to-last part parses as an integer `≥ 1`
(the running candidate stays `1` until the break), answer that integer plus
one; otherwise keep scanning, and answer `1` at the end. -/
def scanRefs : List String → Int
  | [] => 1
  | r :: rest =>
    if (pySplit r '-').length ≥ 3 then
      match pyInt ((pySplit r '-').getD ((pySplit r '-').length - 2) "") with
      | some number => if number ≥ 1 then number + 1 else scanRefs rest
      | none => scanRefs rest
    else scanRefs rest

/-- `Client.get_next_client_reference` for client row `cl` on day `today`
(already rendered as `YYYYMMDD`), reading the shipment table `db`
(newest first, matching `order_by(-id)`). -/
def get_next_client_reference (db : List Shipment) (cl : ClientRow)
    (today : String) : String :=
  let clean := cleanName cl.name
  let refs := (db.filter (refMatches clean today cl.pk)).map
    (fun sh => sh.client_reference.getD "")
  clean ++ "-" ++ intStr (scanRefs refs) ++ "-" ++ today

-- ---------------------------------------------------------------------------
-- Save methods.
-- ---------------------------------------------------------------------------

/-- `Client.save` field logic: assign `client_id` from the allocator only when
it is unset. -/
def clientSave (db : List ClientRow) (c : ClientRow) :
    Except String ClientRow :=
  if c.client_id = "" then
    (get_next_client_id db).map (fun cid => { c with client_id := cid })
  else .ok c

/-- Creating and saving a fresh `Client(name=...)`: run `Client.save` and
insert, raising `IntegrityError` on a `client_id` unique-constraint
violation. `pk` is the next auto-increment identity. -/
def saveNewClient (db : List ClientRow) (name : String) :
    Except String (List ClientRow) :=
  match clientSave db { pk := db.length + 1, client_id := "", name := name } with
  | .error e => .error e
  | .ok c =>
    if db.any (fun t => t.client_id == c.client_id) then
      .error "IntegrityError: UNIQUE constraint failed: client_id"
    else .ok (c :: db)

/-- A sequence of client creations, oldest first. -/
def createClients : List String → List ClientRow → Except String (List ClientRow)
  | [], db => .ok db
  | nm :: rest, db =>
    match saveNewClient db nm with
    | .error e => .error e
    | .ok db2 => createClients rest db2

/-- `Shipment.save` step 1: auto-generate `claim_id` if not provided. -/
def saveStep1 (db : List Shipment) (s : Shipment) : Shipment :=
  if optFalsy s.claim_id then { s with claim_id := some (get_next_claim_id db) }
  else s

/-- `Shipment.save` step 2: auto-generate `client_reference` if not provided
and the shipment has a client. -/
def saveStep2 (db : List Shipment) (today : String) (s : Shipment) : Shipment :=
  match s.client with
  | some cl =>
    if optFalsy s.client_reference then
      { s with client_reference := some (get_next_client_reference db cl today) }
    else s
  | none => s

/-- `Shipment.save` step 3: auto-calculate `Total_Savings` if not provided. -/
def saveStep3 (s : Shipment) : Shipment :=
  if s.Total_Savings = none then
    if s.Claimed_Amount.getD 0 > 0 then
      { s with
        Total_Savings := some (max 0 (s.Claimed_Amount.getD 0 - total_amount_paid s)) }
    else s
  else s

/-- `Shipment.save` step 4: auto-update `Settlement_Status` based on
payments, guarded by truthiness of both amounts. -/
def saveStep4 (s : Shipment) : Shipment :=
  if qtruthy s.Claimed_Amount ∧ total_amount_paid s ≠ 0 then
    if total_amount_paid s ≥ s.Claimed_Amount.getD 0 then
      { s with Settlement_Status := some "SETTLED" }
    else if total_amount_paid s > 0 then
      { s with Settlement_Status := some "PARTIAL" }
    else
      { s with Settlement_Status := some "NOT_SETTLED" }
  else s

/-- The field updates of `Shipment.save`, in the order the method performs
them, against shipment table `db` on day `today`. -/
def shipmentApplySave (db : List Shipment) (today : String) (s : Shipment) :
    Shipment :=
  saveStep4 (saveStep3 (saveStep2 db today (saveStep1 db s)))

/-- Saving a new `Shipment` row: apply the save-method field updates, then
insert, raising `IntegrityError` on a unique-constraint violation of
`Claim_No` or `claim_id` (NULL `claim_id` values never collide). -/
def shipmentSaveInsert (db : List Shipment) (today : String) (s : Shipment) :
    Except String (List Shipment) :=
  let t := shipmentApplySave db today s
  if db.any (fun u => u.Claim_No == t.Claim_No) then
    .error "IntegrityError: UNIQUE constraint failed: Claim_No"
  else if db.any (fun u => u.claim_id == t.claim_id && !(u.claim_id == none)) then
    .error "IntegrityError: UNIQUE constraint failed: claim_id"
  else .ok (t :: db)

/-- A sequence of shipment creations, oldest first. -/
def createShipments (today : String) :
    List Shipment → List Shipment → Except String (List Shipment)
  | [], db => .ok db
  | s :: rest, db =>
    match shipmentSaveInsert db today s with
    | .error e => .error e
    | .ok db2 => createShipments today rest db2

-- ---------------------------------------------------------------------------
-- Specification-side identifier shapes and helper lemmas.
-- ---------------------------------------------------------------------------

/-- The specified shape of the n-th client identifier: `CL` + 5-digit
zero-padded `n` (so `clientIdStr 1 = "CL00001"`). -/
def clientIdStr (n : Nat) : String :=
  String.mk ('C' :: 'L' :: padZeros 5 (natDigits n))

/-- The specified shape of the n-th claim identifier: `CLM` + 6-digit
zero-padded `n` (so `claimIdStr 1 = "CLM000001"`). -/
def claimIdStr (n : Nat) : String :=
  String.mk ('C' :: 'L' :: 'M' :: padZeros 6 (natDigits n))

/-- The client identifiers `CL{k:05d} … CL00001`, newest first: the expected
table contents after `k` creations. -/
def descClientIds : Nat → List String
  | 0 => []
  | k + 1 => clientIdStr (k + 1) :: descClientIds k

/-- The claim identifiers `CLM{k:06d} … CLM000001`, newest first. -/
def descClaimIds : Nat → List (Option String)
  | 0 => []
  | k + 1 => some (claimIdStr (k + 1)) :: descClaimIds k

theorem pyInt_clientIdStr (n : Nat) :
    pyInt (pySlice (clientIdStr n) 2) = some (n : Int) := by
  have h : pySlice (clientIdStr n) 2 =
      String.mk (List.replicate (5 - (natDigits n).length) '0' ++ natDigits n) := rfl
  rw [h, pyInt_padded]

theorem pyInt_claimIdStr (n : Nat) :
    pyInt (pySlice (claimIdStr n) 3) = some (n : Int) := by
  have h : pySlice (claimIdStr n) 3 =
      String.mk (List.replicate (6 - (natDigits n).length) '0' ++ natDigits n) := rfl
  rw [h, pyInt_padded]

theorem clientIdStr_inj {m n : Nat} (h : clientIdStr m = clientIdStr n) :
    m = n := by
  have := pyInt_clientIdStr m
  rw [h, pyInt_clientIdStr n] at this
  simpa using this.symm

theorem claimIdStr_inj {m n : Nat} (h : claimIdStr m = claimIdStr n) :
    m = n := by
  have := pyInt_claimIdStr m
  rw [h, pyInt_claimIdStr n] at this
  simpa using this.symm

theorem claimIdStr_ne_empty (n : Nat) : (claimIdStr n == "") = false := by
  have h : claimIdStr n ≠ "" := by
    intro h
    have : ('C' :: 'L' :: 'M' :: padZeros 6 (natDigits n)) = ([] : List Char) :=
      congrArg String.toList h
    simp at this
  simpa using h

theorem mem_descClientIds {s : String} {k : Nat} :
    s ∈ descClientIds k ↔ ∃ j, 1 ≤ j ∧ j ≤ k ∧ s = clientIdStr j := by
  induction k with
  | zero =>
    simp only [descClientIds, List.not_mem_nil, false_iff]
    rintro ⟨j, h1, h2, _⟩
    omega
  | succ k ih =>
    simp only [descClientIds, List.mem_cons, ih]
    constructor
    · rintro (rfl | ⟨j, h1, h2, rfl⟩)
      · exact ⟨k + 1, by omega, by omega, rfl⟩
      · exact ⟨j, h1, by omega, rfl⟩
    · rintro ⟨j, h1, h2, rfl⟩
      by_cases hj : j = k + 1
      · subst hj; exact Or.inl rfl
      · exact Or.inr ⟨j, h1, by omega, rfl⟩

theorem mem_descClaimIds {s : Option String} {k : Nat} :
    s ∈ descClaimIds k ↔ ∃ j, 1 ≤ j ∧ j ≤ k ∧ s = some (claimIdStr j) := by
  induction k with
  | zero =>
    simp only [descClaimIds, List.not_mem_nil, false_iff]
    rintro ⟨j, h1, h2, _⟩
    omega
  | succ k ih =>
    simp only [descClaimIds, List.mem_cons, ih]
    constructor
    · rintro (rfl | ⟨j, h1, h2, rfl⟩)
      · exact ⟨k + 1, by omega, by omega, rfl⟩
      · exact ⟨j, h1, by omega, rfl⟩
    · rintro ⟨j, h1, h2, rfl⟩
      by_cases hj : j = k + 1
      · subst hj; exact Or.inl rfl
      · exact Or.inr ⟨j, h1, by omega, rfl⟩

theorem nodup_descClientIds (k : Nat) : (descClientIds k).Nodup := by
  induction k with
  | zero => exact List.nodup_nil
  | succ k ih =>
    refine List.Nodup.cons ?_ ih
    intro hmem
    obtain ⟨j, h1, h2, hj⟩ := mem_descClientIds.mp hmem
    have := clientIdStr_inj hj
    omega

theorem nodup_descClaimIds (k : Nat) : (descClaimIds k).Nodup := by
  induction k with
  | zero => exact List.nodup_nil
  | succ k ih =>
    refine List.Nodup.cons ?_ ih
    intro hmem
    obtain ⟨j, h1, h2, hj⟩ := mem_descClaimIds.mp hmem
    have := claimIdStr_inj (Option.some_injective _ hj)
    omega

theorem descClientIds_reverse (k : Nat) :
    (descClientIds k).reverse = (List.range k).map (fun i => clientIdStr (i + 1)) := by
  induction k with
  | zero => rfl
  | succ k ih =>
    rw [descClientIds, List.reverse_cons, ih, List.range_succ, List.map_append]
    rfl

theorem descClaimIds_reverse (k : Nat) :
    (descClaimIds k).reverse =
      (List.range k).map (fun i => some (claimIdStr (i + 1))) := by
  induction k with
  | zero => rfl
  | succ k ih =>
    rw [descClaimIds, List.reverse_cons, ih, List.range_succ, List.map_append]
    rfl

theorem pyZeroPad_ofNat (w n : Nat) :
    pyZeroPad w ((n : Nat) : Int) = padZeros w (natDigits n) := by
  unfold pyZeroPad
  rw [if_neg (by omega)]
  simp

/-- Allocating against a well-formed client table produces the next
identifier in the specified sequence. -/
theorem get_next_client_id_spec (db : List ClientRow) (k : Nat)
    (h : db.map (fun c => c.client_id) = descClientIds k) :
    get_next_client_id db = .ok (clientIdStr (k + 1)) := by
  cases db with
  | nil =>
    have hk : k = 0 := by
      cases k with
      | zero => rfl
      | succ k => simp [descClientIds] at h
    subst hk
    have : clientIdStr 1 = "CL00001" := by decide
    rw [this]
    rfl
  | cons c rest =>
    cases k with
    | zero => simp [descClientIds] at h
    | succ k =>
      simp only [descClientIds, List.map_cons, List.cons.injEq] at h
      unfold get_next_client_id
      simp only [List.head?_cons]
      rw [h.1, pyInt_clientIdStr]
      have harith : ((((k + 1 : Nat)) : Int) + 1) = (((k + 2 : Nat)) : Int) := by
        push_cast
        ring
      show Except.ok (String.mk ('C' :: 'L' ::
        pyZeroPad 5 ((((k + 1 : Nat)) : Int) + 1))) = _
      rw [harith, pyZeroPad_ofNat]
      rfl

/-- Allocating against a well-formed shipment table produces the next claim
identifier in the specified sequence. -/
theorem get_next_claim_id_spec (db : List Shipment) (k : Nat)
    (h : db.map (fun s => s.claim_id) = descClaimIds k) :
    get_next_claim_id db = claimIdStr (k + 1) := by
  cases db with
  | nil =>
    have hk : k = 0 := by
      cases k with
      | zero => rfl
      | succ k => simp [descClaimIds] at h
    subst hk
    have : claimIdStr 1 = "CLM000001" := by decide
    rw [this]
    rfl
  | cons s rest =>
    cases k with
    | zero => simp [descClaimIds] at h
    | succ k =>
      simp only [descClaimIds, List.map_cons, List.cons.injEq] at h
      unfold get_next_claim_id
      simp only [List.head?_cons]
      rw [h.1]
      simp only [optFalsy, claimIdStr_ne_empty, Bool.false_eq_true, if_false,
        Option.getD_some]
      rw [pyInt_claimIdStr]
      have harith : ((((k + 1 : Nat)) : Int) + 1) = (((k + 2 : Nat)) : Int) := by
        push_cast
        ring
      show String.mk ('C' :: 'L' :: 'M' ::
        pyZeroPad 6 ((((k + 1 : Nat)) : Int) + 1)) = _
      rw [harith, pyZeroPad_ofNat]
      rfl

-- ---------------------------------------------------------------------------
-- Projection lemmas: each save step touches exactly one field.
-- ---------------------------------------------------------------------------

@[simp] theorem saveStep1_Claim_No (db : List Shipment) (s : Shipment) :
    (saveStep1 db s).Claim_No = s.Claim_No := by
  unfold saveStep1; split <;> rfl

@[simp] theorem saveStep1_client_reference (db : List Shipment) (s : Shipment) :
    (saveStep1 db s).client_reference = s.client_reference := by
  unfold saveStep1; split <;> rfl

@[simp] theorem saveStep1_client (db : List Shipment) (s : Shipment) :
    (saveStep1 db s).client = s.client := by
  unfold saveStep1; split <;> rfl

@[simp] theorem saveStep1_Claimed_Amount (db : List Shipment) (s : Shipment) :
    (saveStep1 db s).Claimed_Amount = s.Claimed_Amount := by
  unfold saveStep1; split <;> rfl

@[simp] theorem saveStep1_Total_Savings (db : List Shipment) (s : Shipment) :
    (saveStep1 db s).Total_Savings = s.Total_Savings := by
  unfold saveStep1; split <;> rfl

@[simp] theorem saveStep1_Settlement_Status (db : List Shipment) (s : Shipment) :
    (saveStep1 db s).Settlement_Status = s.Settlement_Status := by
  unfold saveStep1; split <;> rfl

@[simp] theorem saveStep1_total_paid (db : List Shipment) (s : Shipment) :
    total_amount_paid (saveStep1 db s) = total_amount_paid s := by
  unfold saveStep1 total_amount_paid; split <;> rfl

@[simp] theorem saveStep2_Claim_No (db : List Shipment) (today : String)
    (s : Shipment) : (saveStep2 db today s).Claim_No = s.Claim_No := by
  unfold saveStep2
  split
  · split <;> rfl
  · rfl

@[simp] theorem saveStep2_claim_id (db : List Shipment) (today : String)
    (s : Shipment) : (saveStep2 db today s).claim_id = s.claim_id := by
  unfold saveStep2
  split
  · split <;> rfl
  · rfl

@[simp] theorem saveStep2_Claimed_Amount (db : List Shipment) (today : String)
    (s : Shipment) : (saveStep2 db today s).Claimed_Amount = s.Claimed_Amount := by
  unfold saveStep2
  split
  · split <;> rfl
  · rfl

@[simp] theorem saveStep2_Total_Savings (db : List Shipment) (today : String)
    (s : Shipment) : (saveStep2 db today s).Total_Savings = s.Total_Savings := by
  unfold saveStep2
  split
  · split <;> rfl
  · rfl

@[simp] theorem saveStep2_Settlement_Status (db : List Shipment) (today : String)
    (s : Shipment) :
    (saveStep2 db today s).Settlement_Status = s.Settlement_Status := by
  unfold saveStep2
  split
  · split <;> rfl
  · rfl

@[simp] theorem saveStep2_total_paid (db : List Shipment) (today : String)
    (s : Shipment) : total_amount_paid (saveStep2 db today s) = total_amount_paid s := by
  unfold saveStep2 total_amount_paid
  split
  · split <;> rfl
  · rfl

@[simp] theorem saveStep3_Claim_No (s : Shipment) :
    (saveStep3 s).Claim_No = s.Claim_No := by
  unfold saveStep3; split <;> [skip; rfl]; split <;> rfl

@[simp] theorem saveStep3_claim_id (s : Shipment) :
    (saveStep3 s).claim_id = s.claim_id := by
  unfold saveStep3; split <;> [skip; rfl]; split <;> rfl

@[simp] theorem saveStep3_client_reference (s : Shipment) :
    (saveStep3 s).client_reference = s.client_reference := by
  unfold saveStep3; split <;> [skip; rfl]; split <;> rfl

@[simp] theorem saveStep3_Claimed_Amount (s : Shipment) :
    (saveStep3 s).Claimed_Amount = s.Claimed_Amount := by
  unfold saveStep3; split <;> [skip; rfl]; split <;> rfl

@[simp] theorem saveStep3_Settlement_Status (s : Shipment) :
    (saveStep3 s).Settlement_Status = s.Settlement_Status := by
  unfold saveStep3; split <;> [skip; rfl]; split <;> rfl

@[simp] theorem saveStep3_total_paid (s : Shipment) :
    total_amount_paid (saveStep3 s) = total_amount_paid s := by
  unfold saveStep3 total_amount_paid; split <;> [skip; rfl]; split <;> rfl

@[simp] theorem saveStep4_Claim_No (s : Shipment) :
    (saveStep4 s).Claim_No = s.Claim_No := by
  unfold saveStep4
  split <;> [skip; rfl]
  split <;> [rfl; skip]
  split <;> rfl

@[simp] theorem saveStep4_claim_id (s : Shipment) :
    (saveStep4 s).claim_id = s.claim_id := by
  unfold saveStep4
  split <;> [skip; rfl]
  split <;> [rfl; skip]
  split <;> rfl

@[simp] theorem saveStep4_client_reference (s : Shipment) :
    (saveStep4 s).client_reference = s.client_reference := by
  unfold saveStep4
  split <;> [skip; rfl]
  split <;> [rfl; skip]
  split <;> rfl

@[simp] theorem saveStep4_Total_Savings (s : Shipment) :
    (saveStep4 s).Total_Savings = s.Total_Savings := by
  unfold saveStep4
  split <;> [skip; rfl]
  split <;> [rfl; skip]
  split <;> rfl

theorem saveStep1_claim_id_of_falsy (db : List Shipment) (s : Shipment)
    (h : optFalsy s.claim_id = true) :
    (saveStep1 db s).claim_id = some (get_next_claim_id db) := by
  unfold saveStep1
  rw [if_pos h]

theorem saveStep1_claim_id_of_truthy (db : List Shipment) (s : Shipment)
    (h : optFalsy s.claim_id = false) :
    (saveStep1 db s).claim_id = s.claim_id := by
  unfold saveStep1
  rw [h]
  rfl

theorem saveStep2_reference_of_truthy (db : List Shipment) (today : String)
    (s : Shipment) (h : optFalsy s.client_reference = false) :
    (saveStep2 db today s).client_reference = s.client_reference := by
  unfold saveStep2
  split
  · rw [h]; rfl
  · rfl

theorem saveStep4_of_guard_false (s : Shipment)
    (h : ¬ (qtruthy s.Claimed_Amount = true ∧ total_amount_paid s ≠ 0)) :
    saveStep4 s = s := by
  unfold saveStep4
  rw [if_neg]
  intro hc
  exact h ⟨hc.1, hc.2⟩

theorem saveStep4_settled (s : Shipment)
    (h1 : qtruthy s.Claimed_Amount = true) (h2 : total_amount_paid s ≠ 0)
    (h3 : total_amount_paid s ≥ s.Claimed_Amount.getD 0) :
    (saveStep4 s).Settlement_Status = some "SETTLED" := by
  unfold saveStep4
  rw [if_pos ⟨h1, h2⟩, if_pos h3]

theorem saveStep4_partial_case (s : Shipment)
    (h1 : qtruthy s.Claimed_Amount = true) (h2 : total_amount_paid s ≠ 0)
    (h3 : ¬ total_amount_paid s ≥ s.Claimed_Amount.getD 0)
    (h4 : total_amount_paid s > 0) :
    (saveStep4 s).Settlement_Status = some "PARTIAL" := by
  unfold saveStep4
  rw [if_pos ⟨h1, h2⟩, if_neg h3, if_pos h4]

-- ---------------------------------------------------------------------------
-- Sequential creation: induction lemmas.
-- ---------------------------------------------------------------------------

theorem saveNewClient_spec (db : List ClientRow) (nm : String) (k : Nat)
    (h : db.map (fun c => c.client_id) = descClientIds k) :
    saveNewClient db nm =
      .ok ({ pk := db.length + 1, client_id := clientIdStr (k + 1), name := nm } :: db) := by
  unfold saveNewClient clientSave
  rw [if_pos rfl, get_next_client_id_spec db k h]
  have hred : (Except.map
      (fun cid => ({ pk := db.length + 1, client_id := cid, name := nm } : ClientRow))
      (Except.ok (clientIdStr (k + 1))) : Except String ClientRow) =
      Except.ok { pk := db.length + 1, client_id := clientIdStr (k + 1), name := nm } := rfl
  rw [hred]
  have hnotex : ¬ ∃ x ∈ db, x.client_id = clientIdStr (k + 1) := by
    rintro ⟨t, ht, heq⟩
    have hmem : clientIdStr (k + 1) ∈ descClientIds k := by
      rw [← h]
      exact List.mem_map.mpr ⟨t, ht, heq⟩
    obtain ⟨j, hj1, hj2, hj3⟩ := mem_descClientIds.mp hmem
    have := clientIdStr_inj hj3
    omega
  simp [hnotex]

theorem createClients_spec :
    ∀ (names : List String) (db : List ClientRow) (k : Nat),
    db.map (fun c => c.client_id) = descClientIds k →
    ∃ db2, createClients names db = .ok db2 ∧
      db2.map (fun c => c.client_id) = descClientIds (k + names.length) := by
  intro names
  induction names with
  | nil =>
    intro db k h
    exact ⟨db, rfl, by simpa using h⟩
  | cons nm rest ih =>
    intro db k h
    have hstep := saveNewClient_spec db nm k h
    have hmap2 : (({ pk := db.length + 1, client_id := clientIdStr (k + 1),
                     name := nm } : ClientRow) :: db).map (fun c => c.client_id) =
        descClientIds (k + 1) := by
      simp only [List.map_cons, h]
      rfl
    obtain ⟨db2, hrun, hmap⟩ := ih _ (k + 1) hmap2
    refine ⟨db2, ?_, ?_⟩
    · unfold createClients
      rw [hstep]
      exact hrun
    · rw [hmap]
      congr 1
      simp only [List.length_cons]
      omega

theorem shipmentApplySave_claim_id_of_falsy (db : List Shipment)
    (today : String) (s : Shipment) (h : optFalsy s.claim_id = true) :
    (shipmentApplySave db today s).claim_id = some (get_next_claim_id db) := by
  unfold shipmentApplySave
  rw [saveStep4_claim_id, saveStep3_claim_id, saveStep2_claim_id,
    saveStep1_claim_id_of_falsy db s h]

theorem shipmentApplySave_Claim_No (db : List Shipment) (today : String)
    (s : Shipment) : (shipmentApplySave db today s).Claim_No = s.Claim_No := by
  unfold shipmentApplySave
  rw [saveStep4_Claim_No, saveStep3_Claim_No, saveStep2_Claim_No,
    saveStep1_Claim_No]

theorem shipmentSaveInsert_spec (db : List Shipment) (today : String)
    (s : Shipment) (k : Nat)
    (hids : db.map (fun u => u.claim_id) = descClaimIds k)
    (hfalsy : optFalsy s.claim_id = true)
    (hno : s.Claim_No ∉ db.map (fun u => u.Claim_No)) :
    ∃ t, shipmentSaveInsert db today s = .ok (t :: db) ∧
      t.claim_id = some (claimIdStr (k + 1)) ∧ t.Claim_No = s.Claim_No := by
  refine ⟨shipmentApplySave db today s, ?_, ?_, shipmentApplySave_Claim_No db today s⟩
  · unfold shipmentSaveInsert
    have hany1 : (db.any fun u => u.Claim_No == (shipmentApplySave db today s).Claim_No)
        = false := by
      rw [List.any_eq_false]
      intro u hu
      simp only [beq_iff_eq, shipmentApplySave_Claim_No]
      intro heq
      exact hno (List.mem_map.mpr ⟨u, hu, heq⟩)
    have hany2 : (db.any fun u =>
        u.claim_id == (shipmentApplySave db today s).claim_id
          && !(u.claim_id == none)) = false := by
      rw [List.any_eq_false]
      intro u hu
      rw [shipmentApplySave_claim_id_of_falsy db today s hfalsy,
        get_next_claim_id_spec db k hids]
      simp only [Bool.and_eq_true, beq_iff_eq, Bool.not_eq_eq_eq_not,
        Bool.not_true, not_and]
      intro heq
      have hmem : some (claimIdStr (k + 1)) ∈ descClaimIds k := by
        rw [← hids]
        exact List.mem_map.mpr ⟨u, hu, heq⟩
      obtain ⟨j, hj1, hj2, hj3⟩ := mem_descClaimIds.mp hmem
      have := claimIdStr_inj (Option.some_injective _ hj3)
      omega
    simp only [hany1, hany2, Bool.false_eq_true, if_false]
  · rw [shipmentApplySave_claim_id_of_falsy db today s hfalsy,
      get_next_claim_id_spec db k hids]

theorem createShipments_spec (today : String) :
    ∀ (inputs : List Shipment) (db : List Shipment) (k : Nat),
    db.map (fun u => u.claim_id) = descClaimIds k →
    (∀ s ∈ inputs, optFalsy s.claim_id = true) →
    ((db.map (fun u => u.Claim_No)) ++ inputs.map (fun s => s.Claim_No)).Nodup →
    ∃ db2, createShipments today inputs db = .ok db2 ∧
      db2.map (fun u => u.claim_id) = descClaimIds (k + inputs.length) := by
  intro inputs
  induction inputs with
  | nil =>
    intro db k h _ _
    exact ⟨db, rfl, by simpa using h⟩
  | cons s rest ih =>
    intro db k h hfree hnd
    have hno : s.Claim_No ∉ db.map (fun u => u.Claim_No) := by
      intro hmem
      have hdisj := (List.nodup_append.mp hnd).2.2
      exact hdisj hmem (by simp)
    obtain ⟨t, hrun, hid, hcn⟩ :=
      shipmentSaveInsert_spec db today s k h (hfree s (by simp)) hno
    have hmap2 : (t :: db).map (fun u => u.claim_id) = descClaimIds (k + 1) := by
      simp only [List.map_cons, hid, h]
      rfl
    have hnd2 : ((t :: db).map (fun u => u.Claim_No) ++
        rest.map (fun u => u.Claim_No)).Nodup := by
      simp only [List.map_cons, hcn, List.cons_append]
      have hperm : (db.map (fun u => u.Claim_No) ++
          s.Claim_No :: rest.map (fun u => u.Claim_No)).Perm
          (s.Claim_No :: (db.map (fun u => u.Claim_No) ++
            rest.map (fun u => u.Claim_No))) := List.perm_middle
      exact (hperm.nodup_iff).mp hnd
    obtain ⟨db2, hrun2, hmap⟩ := ih (t :: db) (k + 1) hmap2
      (fun u hu => hfree u (by simp [hu])) hnd2
    refine ⟨db2, ?_, ?_⟩
    · unfold createShipments
      rw [hrun]
      exact hrun2
    · rw [hmap]
      congr 1
      simp only [List.length_cons]
      omega

-- ---------------------------------------------------------------------------
-- Bulk import (process_excel_data in src/main/views/data_views.py).
-- ---------------------------------------------------------------------------

/-- A spreadsheet cell as handed over by the workbook reader with
`values_only`: empty, a string, an integer-valued number, a boolean, or a
date value. -/
inductive Cell where
  | cnone
  | cstr (s : String)
  | cint (n : Int)
  | cbool (b : Bool)
  | cdate (y m d : Nat)
deriving DecidableEq

/-- Python truthiness of a cell value. -/
def Cell.truthy : Cell → Bool
  | .cnone => false
  | .cstr s => !(s == "")
  | .cint n => !(n == 0)
  | .cbool b => b
  | .cdate _ _ _ => true

/-- Python `str(...)` of a cell value (a date renders as ISO `YYYY-MM-DD`). -/
def Cell.pyStr : Cell → String
  | .cnone => "None"
  | .cstr s => s
  | .cint n => intStr n
  | .cbool b => if b then "True" else "False"
  | .cdate y m d =>
    String.mk (pyZeroPad 4 (y : Int)) ++ "-" ++ String.mk (pyZeroPad 2 (m : Int))
      ++ "-" ++ String.mk (pyZeroPad 2 (d : Int))

/-- Gregorian leap year. -/
def isLeap (y : Nat) : Bool := (y % 4 == 0 && y % 100 != 0) || y % 400 == 0

/-- Days in a month, used by date validation. -/
def daysInMonth (y m : Nat) : Nat :=
  if m = 2 then (if isLeap y then 29 else 28)
  else if m = 4 ∨ m = 6 ∨ m = 9 ∨ m = 11 then 30
  else 31

/-- A numeric date field of at most `maxLen` digits. -/
def parseNatField (s : String) (maxLen : Nat) : Option Nat :=
  if s.toList ≠ [] ∧ s.toList.length ≤ maxLen ∧ s.toList.all Char.isDigit then
    some (foldDigits s.toList)
  else none

/-- Range validation performed by `strptime`. -/
def mkValidDate (y m d : Nat) : Option (Nat × Nat × Nat) :=
  if 1 ≤ m ∧ m ≤ 12 ∧ 1 ≤ d ∧ d ≤ daysInMonth y m ∧ 1 ≤ y ∧ y ≤ 9999 then
    some (y, m, d)
  else none

/-- Modelled library call `datetime.strptime(s, "%Y-%m-%d")`: `none` is a
raised `ValueError`. -/
def strptimeYMD (s : String) : Option (Nat × Nat × Nat) :=
  match s.splitOn "-" with
  | [ys, ms, ds] =>
    match parseNatField ys 4, parseNatField ms 2, parseNatField ds 2 with
    | some y, some m, some d => mkValidDate y m d
    | _, _, _ => none
  | _ => none

/-- Modelled library call `datetime.strptime(s, "%d/%m/%Y")`. -/
def strptimeDMY (s : String) : Option (Nat × Nat × Nat) :=
  match s.splitOn "/" with
  | [ds, ms, ys] =>
    match parseNatField ys 4, parseNatField ms 2, parseNatField ds 2 with
    | some y, some m, some d => mkValidDate y m d
    | _, _, _ => none
  | _ => none

/-- Date conversion of `process_excel_data` for columns 4 and 6: a date cell
is used as is; a string is tried against `%Y-%m-%d` then `%d/%m/%Y`, every
parse failure being swallowed into `None`; other types stay `None`. Note that
no failure here ever raises. -/
def parseDateCell (row : List Cell) (idx : Nat) : Option (Nat × Nat × Nat) :=
  if row.length > idx ∧ (row.getD idx Cell.cnone).truthy then
    match row.getD idx Cell.cnone with
    | .cdate y m d => some (y, m, d)
    | .cstr s =>
      match strptimeYMD s with
      | some d => some d
      | none => strptimeDMY s
    | _ => none
  else none

/-- The characters kept by the numeric-string cleaner
(`c.isdigit() or c = '.'`). -/
def cleanNumChars (s : String) : List Char :=
  s.toList.filter (fun c => c.isDigit || c == '.')

/-- Modelled library call `float(cs)` for a nonempty list of digits and dots:
defined when there is at most one dot and at least one digit, otherwise a
raised `ValueError`. -/
def floatOfDigitsDots (cs : List Char) : Except String Rat :=
  if cs.count '.' ≤ 1 ∧ cs.any Char.isDigit then
    .ok ((foldDigits (cs.takeWhile (fun c => !(c == '.'))) : Rat) +
      (foldDigits ((cs.dropWhile (fun c => !(c == '.'))).drop 1) : Rat) /
        (10 : Rat) ^ ((cs.dropWhile (fun c => !(c == '.'))).drop 1).length)
  else .error "ValueError: could not convert string to float"

/-- The safe numeric conversion applied to the monetary columns
(7, 8, 9, 10, 12 and 14): default `0`; a numeric cell is used directly
(a Python bool is an int subtype, `True` counting as 1); a string with
nonblank strip is cleaned to digits and dots and, when the cleaned string is
nonempty, converted by `float`, which can raise. -/
def convMoney (row : List Cell) (idx : Nat) : Except String Rat :=
  if row.length > idx ∧ (row.getD idx Cell.cnone).truthy then
    match row.getD idx Cell.cnone with
    | .cint n => .ok ((n : Int) : Rat)
    | .cbool b => .ok (if b then 1 else 0)
    | .cstr s =>
      if !(pyStrip s == "") then
        if cleanNumChars s ≠ [] then floatOfDigitsDots (cleanNumChars s)
        else .ok 0
      else .ok 0
    | _ => .ok 0
  else .ok 0

/-- The YES/NO flag conversion for columns 3 and 5. -/
def convYesNo (row : List Cell) (idx : Nat) : String :=
  if row.length > idx ∧ (row.getD idx Cell.cnone).truthy then
    match row.getD idx Cell.cnone with
    | .cbool b => if b then "YES" else "NO"
    | .cstr s => if pyUpper s ∈ ["YES", "Y", "TRUE", "1"] then "YES" else "NO"
    | _ => "NO"
  else "NO"

/-- The `BRANCH_CHOICES` codes of the model. -/
def branchChoices : List String :=
  ["ATL", "CMU", "CON", "DOR", "HEC", "HNL", "HOU", "ICS", "IMP", "JFK",
   "LAX", "LCL", "ORD", "PPG"]

/-- Branch conversion for column 11: invalid codes are blanked. -/
def convBranch (row : List Cell) : String :=
  if row.length > 11 ∧ (row.getD 11 Cell.cnone).truthy then
    if !(pyStrip (Cell.pyStr (row.getD 11 Cell.cnone)) == "") ∧
        pyStrip (Cell.pyStr (row.getD 11 Cell.cnone)) ∉ branchChoices then ""
    else pyStrip (Cell.pyStr (row.getD 11 Cell.cnone))
  else ""

/-- Settlement-status conversion for column 13. -/
def convSettlement (row : List Cell) : Option String :=
  if row.length > 13 ∧ (row.getD 13 Cell.cnone).truthy then
    if pyStrip (pyUpper (Cell.pyStr (row.getD 13 Cell.cnone))) ∈
        ["SETTLED", "YES", "Y", "TRUE", "1"] then some "SETTLED"
    else if pyStrip (pyUpper (Cell.pyStr (row.getD 13 Cell.cnone))) ∈
        ["NOT SETTLED", "NOT_SETTLED", "NO", "N", "FALSE", "0"] then
      some "NOT_SETTLED"
    else if pyStrip (pyUpper (Cell.pyStr (row.getD 13 Cell.cnone))) ∈
        ["PARTIAL", "PARTIALLY SETTLED", "PARTIAL_SETTLED"] then some "PARTIAL"
    else none
  else none

/-- The `STATUS_CHOICES` codes of the model. -/
def statusChoices : List String :=
  ["OPEN", "PENDING", "CLOSED", "REJECTED", "UNDER_REVIEW"]

/-- Status conversion for column 15 (the source's second `elif` lists the
same five codes again, so one membership test is equivalent). -/
def convStatus (row : List Cell) : String :=
  if row.length > 15 ∧ (row.getD 15 Cell.cnone).truthy then
    if pyStrip (pyUpper (Cell.pyStr (row.getD 15 Cell.cnone))) ∈ statusChoices then
      pyStrip (pyUpper (Cell.pyStr (row.getD 15 Cell.cnone)))
    else "OPEN"
  else "OPEN"

/-- Django `Client.objects.get_or_create(name__iexact=claimant, defaults=...)`:
look up by case-insensitive name; no match creates and saves a new `Client`
(which can itself raise); several matches raise `MultipleObjectsReturned`. -/
def getOrCreateClient (clients : List ClientRow) (nm : String) :
    Except String (List ClientRow × ClientRow) :=
  match clients.filter (fun c => pyLower c.name == pyLower nm) with
  | [] =>
    match saveNewClient clients nm with
    | .error e => .error e
    | .ok db2 =>
      match db2.head? with
      | some c => .ok (db2, c)
      | none => .error "unreachable"
  | [c] => .ok (clients, c)
  | _ => .error "MultipleObjectsReturned"

/-- The evolving state of one bulk import run: the two tables plus the
report accumulators of `process_excel_data`. -/
structure ImportState where
  clients : List ClientRow
  shipments : List Shipment
  skipped : List String
  created : Nat
  errors : List String
deriving DecidableEq

/-- One iteration of the row loop of `process_excel_data`, faithful to the
source's control flow: empty row skipped silently; a nonblank claim number
already in the table is recorded as skipped; a missing claimant is recorded
as an error; then client get-or-create, date conversions (which never raise),
numeric conversions (which can raise), field conversions, and the `save`
call, any raise being recorded as an error for that row while processing
continues. -/
def processRow (today : String) (st : ImportState) (row : List Cell) :
    ImportState :=
  if row = [] then st
  else
    if !((if (row.getD 0 Cell.cnone).truthy then
            pyStrip (row.getD 0 Cell.cnone).pyStr else "") == "") ∧
        st.shipments.any (fun sh => sh.Claim_No ==
          (if (row.getD 0 Cell.cnone).truthy then
            pyStrip (row.getD 0 Cell.cnone).pyStr else "")) then
      { st with skipped := st.skipped ++
          [if (row.getD 0 Cell.cnone).truthy then
            pyStrip (row.getD 0 Cell.cnone).pyStr else ""] }
    else
      if (if row.length > 2 ∧ (row.getD 2 Cell.cnone).truthy then
            pyStrip (row.getD 2 Cell.cnone).pyStr else "") == "" then
        { st with errors := st.errors ++ ["Missing claimant name"] }
      else
        match getOrCreateClient st.clients
            (if row.length > 2 ∧ (row.getD 2 Cell.cnone).truthy then
              pyStrip (row.getD 2 Cell.cnone).pyStr else "") with
        | .error e => { st with errors := st.errors ++ [e] }
        | .ok (clients2, client) =>
          match (do
            let v ← convMoney row 7
            let iscm ← convMoney row 8
            let carrier ← convMoney row 9
            let insurance ← convMoney row 10
            let savings ← convMoney row 12
            let exposure ← convMoney row 14
            pure (v, iscm, carrier, insurance, savings, exposure) :
              Except String (Rat × Rat × Rat × Rat × Rat × Rat)) with
          | .error e =>
            { st with clients := clients2, errors := st.errors ++ [e] }
          | .ok (v, iscm, carrier, insurance, savings, exposure) =>
            match shipmentSaveInsert st.shipments today
              { Claim_No := (if (row.getD 0 Cell.cnone).truthy then
                  pyStrip (row.getD 0 Cell.cnone).pyStr else ""),
                claim_id := none, client_reference := none,
                client := some client,
                Brand := (if row.length > 1 ∧ (row.getD 1 Cell.cnone).truthy then
                  pyStrip (row.getD 1 Cell.cnone).pyStr else ""),
                Claimant := (if row.length > 2 ∧ (row.getD 2 Cell.cnone).truthy then
                  pyStrip (row.getD 2 Cell.cnone).pyStr else ""),
                Branch := convBranch row,
                Intent_To_Claim := convYesNo row 3,
                Intend_Claim_Date := parseDateCell row 4,
                Formal_Claim_Received := convYesNo row 5,
                Formal_Claim_Date_Received := parseDateCell row 6,
                Claimed_Amount := some v,
                Amount_Paid_By_Carrier := some carrier,
                Amount_Paid_By_Awa := some iscm,
                Amount_Paid_By_Insurance := some insurance,
                Total_Savings := some savings,
                Financial_Exposure := some exposure,
                Settlement_Status := convSettlement row,
                Status := convStatus row } with
            | .error e =>
              { st with clients := clients2, errors := st.errors ++ [e] }
            | .ok db2 =>
              { st with clients := clients2, shipments := db2,
                        created := st.created + 1 }

/-- `process_excel_data`: fold the row loop over the data rows (the header
row is already excluded by `min_row=2`). -/
def process_excel_data (today : String) (st : ImportState)
    (rows : List (List Cell)) : ImportState :=
  rows.foldl (processRow today) st

-- ---------------------------------------------------------------------------
-- Specification-side reference-number definitions (for claim C2).
-- ---------------------------------------------------------------------------

/-- The number the early-break scan stops at, stated directly: the parsed
second-to-last `-`-part of the first (newest) matching reference that splits
into at least three parts and whose number is at least 1. -/
def firstUsableNumber : List String → Option Int
  | [] => none
  | r :: rest =>
    if (pySplit r '-').length ≥ 3 then
      match pyInt ((pySplit r '-').getD ((pySplit r '-').length - 2) "") with
      | some m => if m ≥ 1 then some m else firstUsableNumber rest
      | none => firstUsableNumber rest
    else firstUsableNumber rest

/-- Modelled from the spec: the middle numbers already used among the
matching references. -/
def usedNumbers (refs : List String) : List Int :=
  refs.filterMap (fun r =>
    if (pySplit r '-').length ≥ 3 then
      pyInt ((pySplit r '-').getD ((pySplit r '-').length - 2) "")
    else none)

/-- Modelled from the spec: the smallest positive integer not yet used among
the matching references (it always lies within `refs.length + 1`). -/
def smallestUnused (refs : List String) : Nat :=
  (((List.range (refs.length + 1)).map (fun i => i + 1)).filter
    (fun k => decide (¬ ((k : Nat) : Int) ∈ usedNumbers refs))).headD 1

/-- Modelled from the spec (the wording of claim C2): the reference built
from the sanitized name and the smallest unused positive same-day number. -/
def specNextClientReference (db : List Shipment) (cl : ClientRow)
    (today : String) : String :=
  cleanName cl.name ++ "-" ++
    intStr ((smallestUnused ((db.filter
      (refMatches (cleanName cl.name) today cl.pk)).map
        (fun sh => sh.client_reference.getD "")) : Nat) : Int) ++ "-" ++ today

theorem scanRefs_cons (r : String) (rest : List String) :
    scanRefs (r :: rest) =
      if (pySplit r '-').length ≥ 3 then
        match pyInt ((pySplit r '-').getD ((pySplit r '-').length - 2) "") with
        | some number => if number ≥ 1 then number + 1 else scanRefs rest
        | none => scanRefs rest
      else scanRefs rest := rfl

theorem firstUsableNumber_cons (r : String) (rest : List String) :
    firstUsableNumber (r :: rest) =
      if (pySplit r '-').length ≥ 3 then
        match pyInt ((pySplit r '-').getD ((pySplit r '-').length - 2) "") with
        | some m => if m ≥ 1 then some m else firstUsableNumber rest
        | none => firstUsableNumber rest
      else firstUsableNumber rest := rfl

theorem scanRefs_eq_firstUsable (refs : List String) :
    scanRefs refs = (match firstUsableNumber refs with
      | some m => m + 1
      | none => 1) := by
  induction refs with
  | nil => rfl
  | cons r rest ih =>
    rw [scanRefs_cons, firstUsableNumber_cons]
    by_cases hlen : (pySplit r '-').length ≥ 3
    · rw [if_pos hlen, if_pos hlen]
      cases hp : pyInt ((pySplit r '-').getD ((pySplit r '-').length - 2) "") with
      | none => exact ih
      | some m =>
        by_cases hm : m ≥ 1
        · simp [hm]
        · simp [hm, ih]
    · rw [if_neg hlen, if_neg hlen]
      exact ih

-- ---------------------------------------------------------------------------
-- Concrete rows used by witnesses and counterexamples.
-- ---------------------------------------------------------------------------

/-- A persisted client used by the concrete scenarios. -/
def acmeClient : ClientRow := { pk := 1, client_id := "CL00001", name := "Acme" }

/-- A persisted shipment holding the same-day reference `Acme-2-20250601`. -/
def refShipment : Shipment :=
  { emptyShipment with Claim_No := "R1", client := some acmeClient,
                       client_reference := some "Acme-2-20250601" }

/-- A newest shipment whose `claim_id` has a non-numeric suffix. -/
def badTailShipment : Shipment :=
  { emptyShipment with Claim_No := "S2", claim_id := some "CLMXYZ" }

/-- An older shipment that already uses the base identifier `CLM000001`. -/
def baseShipment : Shipment :=
  { emptyShipment with Claim_No := "S1", claim_id := some "CLM000001" }

/-- A newest shipment whose `claim_id` is NULL. -/
def nullIdShipment : Shipment :=
  { emptyShipment with Claim_No := "S3", claim_id := none }

/-- A client row whose stored identifier has no numeric suffix. -/
def badClient : ClientRow := { pk := 1, client_id := "CLIENTX", name := "X" }

theorem saveStep3_of_none_pos (s : Shipment) (hts : s.Total_Savings = none)
    (hpos : s.Claimed_Amount.getD 0 > 0) :
    (saveStep3 s).Total_Savings =
      some (max 0 (s.Claimed_Amount.getD 0 - total_amount_paid s)) := by
  unfold saveStep3
  rw [if_pos hts, if_pos hpos]

theorem saveStep3_of_none_nonpos (s : Shipment) (hts : s.Total_Savings = none)
    (hpos : ¬ s.Claimed_Amount.getD 0 > 0) :
    (saveStep3 s).Total_Savings = none := by
  unfold saveStep3
  rw [if_pos hts, if_neg hpos]
  exact hts

-- ---------------------------------------------------------------------------
-- Bulk-import scenario data (claim C7).
-- ---------------------------------------------------------------------------

/-- The pre-existing shipment whose `Claim_No` is duplicated by row 7. -/
def dupShipment : Shipment :=
  { emptyShipment with Claim_No := "DUP1", claim_id := some "CLM000001",
                       client := some acmeClient }

/-- The database state before the import: one client, one shipment. -/
def importInitialState : ImportState :=
  { clients := [acmeClient], shipments := [dupShipment], skipped := [],
    created := 0, errors := [] }

/-- A plain data row: claim number, blank brand, claimant. -/
def importRow (cn : String) : List Cell := [Cell.cstr cn, Cell.cnone, Cell.cstr "Acme"]

/-- Ten data rows; row 5 carries an invalid date string in the intent-date
column, row 7 duplicates the existing `Claim_No` `DUP1`. -/
def scenarioRows : List (List Cell) :=
  [importRow "CN01", importRow "CN02", importRow "CN03", importRow "CN04",
   [Cell.cstr "CN05", Cell.cnone, Cell.cstr "Acme", Cell.cnone, Cell.cstr "not-a-date"],
   importRow "CN06",
   [Cell.cstr "DUP1", Cell.cnone, Cell.cstr "Acme"],
   importRow "CN07", importRow "CN08", importRow "CN09"]

/-- A fresh shipment input with claim number `A1`. -/
def shipA : Shipment := { emptyShipment with Claim_No := "A1" }

/-- A fresh shipment input with claim number `B2`. -/
def shipB : Shipment := { emptyShipment with Claim_No := "B2" }

/-- A shipment fully paid by the carrier. -/
def settledInput : Shipment :=
  { emptyShipment with Claim_No := "W5a", Claimed_Amount := some 100,
                       Amount_Paid_By_Carrier := some 150 }

/-- A shipment with a claimed amount, zero paid and a pre-set status. -/
def zeroPaidInput : Shipment :=
  { emptyShipment with Claim_No := "W5b", Claimed_Amount := some 100,
                       Settlement_Status := some "PARTIAL" }

/-- A shipment claimed 500 with 200 paid by the carrier. -/
def savingsInput : Shipment :=
  { emptyShipment with Claim_No := "W6", Claimed_Amount := some 500,
                       Amount_Paid_By_Carrier := some 200 }

/-- A client row with its identifier already assigned. -/
def presetClient : ClientRow := { pk := 9, client_id := "CL00042", name := "Zed" }

/-- A shipment with both generated identifiers already assigned. -/
def presetShipment : Shipment :=
  { emptyShipment with Claim_No := "W8", claim_id := some "CLM000042",
                       client_reference := some "Acme-7-20250601" }

-- ---------------------------------------------------------------------------
-- Claim theorems.
-- ---------------------------------------------------------------------------

/-- Claim C1, counterexample: in a database state whose newest shipment has
the unparseable stored identifier `CLMXYZ` while an older row already uses
`CLM000001`, `get_next_claim_id` does not raise: it returns the base value
`CLM000001`, which is already in use - refuting the claim that the allocator
never returns a default or potentially colliding identifier on parse
failure. -/
theorem claim_allocator_fallback_collides :
    get_next_claim_id [badTailShipment, baseShipment] = "CLM000001" ∧
    some "CLM000001" ∈ [badTailShipment, baseShipment].map (fun s => s.claim_id) := by
  constructor
  · with_unfolding_all decide
  · with_unfolding_all decide

/-- Claim C1 (amended): on an unparseable newest stored identifier, the two
allocators differ. `get_next_client_id` raises `ValueError` (the uncaught
`int(...)` call), so the enclosing `Client` save aborts with that error;
`get_next_claim_id` instead catches the parse failure and returns the base
value `CLM000001` regardless of earlier rows, so it can collide. -/
theorem allocator_parse_failure_behavior (c : ClientRow) (crest : List ClientRow)
    (nm : String) (s : Shipment) (srest : List Shipment)
    (hc : pyInt (pySlice c.client_id 2) = none)
    (hs : pyInt (pySlice (s.claim_id.getD "") 3) = none) :
    get_next_client_id (c :: crest) = .error "ValueError: invalid literal for int" ∧
    saveNewClient (c :: crest) nm = .error "ValueError: invalid literal for int" ∧
    get_next_claim_id (s :: srest) = "CLM000001" := by
  have h1 : get_next_client_id (c :: crest) =
      .error "ValueError: invalid literal for int" := by
    unfold get_next_client_id
    simp only [List.head?_cons, hc]
  refine ⟨h1, ?_, ?_⟩
  · unfold saveNewClient clientSave
    rw [if_pos rfl, h1]
    rfl
  · unfold get_next_claim_id
    simp only [List.head?_cons]
    split
    · rfl
    · rw [hs]

/-- Claim C1, witness for the amended theorem at a concrete state. -/
theorem allocator_parse_failure_witness :
    get_next_client_id [badClient] = .error "ValueError: invalid literal for int" ∧
    saveNewClient [badClient] "New" = .error "ValueError: invalid literal for int" ∧
    get_next_claim_id [badTailShipment] = "CLM000001" :=
  allocator_parse_failure_behavior badClient [] "New" badTailShipment []
    (by decide) (by decide)

/-- Claim C2, counterexample: with the single existing same-day reference
`Acme-2-20250601`, the code returns `Acme-3-20250601` while the
specification's smallest-unused-number rule would give `Acme-1-20250601`. -/
theorem client_reference_not_smallest_unused :
    get_next_client_reference [refShipment] acmeClient "20250601" = "Acme-3-20250601" ∧
    specNextClientReference [refShipment] acmeClient "20250601" = "Acme-1-20250601" ∧
    get_next_client_reference [refShipment] acmeClient "20250601" ≠
      specNextClientReference [refShipment] acmeClient "20250601" := by
  refine ⟨?_, ?_, ?_⟩ <;> with_unfolding_all decide

/-- Claim C2 (amended): `get_next_client_reference` returns
`{sanitized}-{n}-{today}` where the sanitized name strips every character
that is not an ASCII letter or digit and truncates to 15 characters, but `n`
is NOT the smallest unused number: the early-break scan yields `m + 1` for
`m` the parsed middle number of the newest same-day reference that splits
into at least three `-`-parts with middle number at least 1, and `1` when no
such reference exists. -/
theorem next_client_reference_formula (db : List Shipment) (cl : ClientRow)
    (today : String) :
    get_next_client_reference db cl today =
      cleanName cl.name ++ "-" ++
        intStr (match firstUsableNumber ((db.filter
          (refMatches (cleanName cl.name) today cl.pk)).map
            (fun sh => sh.client_reference.getD "")) with
          | some m => m + 1
          | none => 1) ++ "-" ++ today ∧
    cleanName cl.name = String.mk ((cl.name.toList.filter Char.isAlphanum).take 15) := by
  constructor
  · rw [← scanRefs_eq_firstUsable]
    rfl
  · rfl

/-- Claim C3: starting from an empty table, any sequence of N client
creations yields exactly the identifiers `CL00001 … CL{N:05d}` in creation
order with no duplicates, and the first allocation on an empty table is
`CL00001`. -/
theorem client_ids_exactly_sequential (names : List String) :
    ∃ db, createClients names [] = .ok db ∧
      (db.map (fun c => c.client_id)).reverse =
        (List.range names.length).map (fun i => clientIdStr (i + 1)) ∧
      (db.map (fun c => c.client_id)).Nodup ∧
      get_next_client_id [] = .ok "CL00001" := by
  obtain ⟨db, hrun, hmap⟩ := createClients_spec names [] 0 rfl
  refine ⟨db, hrun, ?_, ?_, rfl⟩
  · rw [hmap]
    simpa using descClientIds_reverse names.length
  · rw [hmap]
    exact nodup_descClientIds _

/-- Claim C4: starting from an empty table, any sequence of N claim
creations (fresh rows with no pre-set `claim_id` and pairwise distinct claim
numbers) yields exactly the identifiers `CLM000001 … CLM{N:06d}` with no
duplicates. -/
theorem claim_ids_exactly_sequential (today : String) (inputs : List Shipment)
    (hfree : ∀ s ∈ inputs, optFalsy s.claim_id = true)
    (hnodup : (inputs.map (fun s => s.Claim_No)).Nodup) :
    ∃ db, createShipments today inputs [] = .ok db ∧
      (db.map (fun s => s.claim_id)).reverse =
        (List.range inputs.length).map (fun i => some (claimIdStr (i + 1))) ∧
      (db.map (fun s => s.claim_id)).Nodup := by
  obtain ⟨db, hrun, hmap⟩ :=
    createShipments_spec today inputs [] 0 rfl hfree (by simpa using hnodup)
  refine ⟨db, hrun, ?_, ?_⟩
  · rw [hmap]
    simpa using descClaimIds_reverse inputs.length
  · rw [hmap]
    exact nodup_descClaimIds _

/-- Claim C4, witness: two concrete creations produce `CLM000001` then
`CLM000002`. -/
theorem claim_ids_exactly_sequential_witness :
    ∃ db, createShipments "20250601" [shipA, shipB] [] = .ok db ∧
      (db.map (fun s => s.claim_id)).reverse =
        (List.range 2).map (fun i => some (claimIdStr (i + 1))) ∧
      (db.map (fun s => s.claim_id)).Nodup :=
  claim_ids_exactly_sequential "20250601" [shipA, shipB] (by decide) (by decide)

/-- Claim C5: on every save, when the claimed amount is truthy and the total
paid is nonzero, the resulting settlement status is SETTLED when
paid ≥ claimed and PARTIAL when 0 < paid < claimed; when total paid is zero
the update branch is skipped and the status keeps its prior (possibly null)
value. -/
theorem settlement_status_on_save (db : List Shipment) (today : String)
    (s : Shipment) :
    (qtruthy s.Claimed_Amount = true → total_amount_paid s ≠ 0 →
      (total_amount_paid s ≥ s.Claimed_Amount.getD 0 →
        (shipmentApplySave db today s).Settlement_Status = some "SETTLED") ∧
      (0 < total_amount_paid s → total_amount_paid s < s.Claimed_Amount.getD 0 →
        (shipmentApplySave db today s).Settlement_Status = some "PARTIAL")) ∧
    (total_amount_paid s = 0 →
      (shipmentApplySave db today s).Settlement_Status = s.Settlement_Status) := by
  have e1 : (saveStep3 (saveStep2 db today (saveStep1 db s))).Claimed_Amount =
      s.Claimed_Amount := by simp
  have e2 : total_amount_paid (saveStep3 (saveStep2 db today (saveStep1 db s))) =
      total_amount_paid s := by simp
  have e3 : (saveStep3 (saveStep2 db today (saveStep1 db s))).Settlement_Status =
      s.Settlement_Status := by simp
  constructor
  · intro hq hnz
    constructor
    · intro hge
      exact saveStep4_settled _ (by rw [e1]; exact hq) (by rw [e2]; exact hnz)
        (by rw [e1, e2]; exact hge)
    · intro hpos hlt
      exact saveStep4_partial_case _ (by rw [e1]; exact hq) (by rw [e2]; exact hnz)
        (by rw [e1, e2]; exact not_le.mpr hlt) (by rw [e2]; exact hpos)
  · intro hz
    have hfix : saveStep4 (saveStep3 (saveStep2 db today (saveStep1 db s))) =
        saveStep3 (saveStep2 db today (saveStep1 db s)) := by
      apply saveStep4_of_guard_false
      intro hcontra
      exact hcontra.2 (e2.trans hz)
    have : (shipmentApplySave db today s).Settlement_Status =
        (saveStep4 (saveStep3 (saveStep2 db today (saveStep1 db s)))).Settlement_Status :=
      rfl
    rw [this, hfix, e3]

/-- Claim C5, witness: a fully paid claim becomes SETTLED, and a claim with
zero paid keeps its prior PARTIAL status. -/
theorem settlement_status_on_save_witness :
    (shipmentApplySave [] "20250601" settledInput).Settlement_Status = some "SETTLED" ∧
    (shipmentApplySave [] "20250601" zeroPaidInput).Settlement_Status =
      zeroPaidInput.Settlement_Status := by
  constructor
  · exact ((settlement_status_on_save [] "20250601" settledInput).1
      (by with_unfolding_all decide) (by with_unfolding_all decide)).1
      (by with_unfolding_all decide)
  · exact (settlement_status_on_save [] "20250601" zeroPaidInput).2
      (by with_unfolding_all decide)

/-- Claim C6: after every save on which `Total_Savings` was unset and the
claimed amount is positive, `Total_Savings` equals
`max 0 (claimed - (carrier + intermediary + insurer))` with nulls as zero;
when the claimed amount is not positive and `Total_Savings` was unset, it
stays unset. -/
theorem total_savings_on_save (db : List Shipment) (today : String)
    (s : Shipment) :
    (s.Total_Savings = none → s.Claimed_Amount.getD 0 > 0 →
      (shipmentApplySave db today s).Total_Savings =
        some (max 0 (s.Claimed_Amount.getD 0 - total_amount_paid s))) ∧
    (s.Total_Savings = none → ¬ s.Claimed_Amount.getD 0 > 0 →
      (shipmentApplySave db today s).Total_Savings = none) := by
  have e0 : (saveStep2 db today (saveStep1 db s)).Total_Savings =
      s.Total_Savings := by simp
  have e1 : (saveStep2 db today (saveStep1 db s)).Claimed_Amount =
      s.Claimed_Amount := by simp
  have e2 : total_amount_paid (saveStep2 db today (saveStep1 db s)) =
      total_amount_paid s := by simp
  constructor
  · intro hts hpos
    have : (shipmentApplySave db today s).Total_Savings =
        (saveStep3 (saveStep2 db today (saveStep1 db s))).Total_Savings := by
      exact saveStep4_Total_Savings _
    rw [this, saveStep3_of_none_pos _ (by rw [e0]; exact hts)
      (by rw [e1]; exact hpos), e1, e2]
  · intro hts hpos
    have : (shipmentApplySave db today s).Total_Savings =
        (saveStep3 (saveStep2 db today (saveStep1 db s))).Total_Savings := by
      exact saveStep4_Total_Savings _
    rw [this, saveStep3_of_none_nonpos _ (by rw [e0]; exact hts)
      (by rw [e1]; exact hpos)]

/-- Claim C6, witness: claimed 500 and carrier-paid 200 produce savings 300;
no claimed amount leaves savings unset. -/
theorem total_savings_on_save_witness :
    (shipmentApplySave [] "20250601" savingsInput).Total_Savings = some 300 ∧
    (shipmentApplySave [] "20250601" emptyShipment).Total_Savings = none := by
  constructor
  · rw [(total_savings_on_save [] "20250601" savingsInput).1 rfl
      (by with_unfolding_all decide)]
    with_unfolding_all decide
  · exact (total_savings_on_save [] "20250601" emptyShipment).2 rfl
      (by with_unfolding_all decide)

/-- Claim C7, counterexample: the ten-row scenario (invalid date string in
row 5, duplicate claim number in row 7) does NOT produce 8 created, 1
skipped and 1 errored entries. -/
theorem bulk_import_scenario_not_as_claimed :
    ¬ ((process_excel_data "20250601" importInitialState scenarioRows).created = 8 ∧
       (process_excel_data "20250601" importInitialState scenarioRows).skipped.length = 1 ∧
       (process_excel_data "20250601" importInitialState scenarioRows).errors.length = 1) := by
  with_unfolding_all decide

/-- Claim C7 (amended): the scenario yields 9 created entries, 1 skipped
entry (`DUP1`) and 0 errored entries: an invalid date string is silently
parsed to null (both formats are tried and every failure is swallowed), so
row 5 is still created - with a null intent-to-claim date. -/
theorem bulk_import_scenario_actual_counts :
    (process_excel_data "20250601" importInitialState scenarioRows).created = 9 ∧
    (process_excel_data "20250601" importInitialState scenarioRows).skipped = ["DUP1"] ∧
    (process_excel_data "20250601" importInitialState scenarioRows).errors = [] ∧
    ((process_excel_data "20250601" importInitialState scenarioRows).shipments.find?
      (fun sh => sh.Claim_No == "CN05")).map (fun sh => sh.Intend_Claim_Date) =
      some none := by
  refine ⟨?_, ?_, ?_, ?_⟩ <;> with_unfolding_all decide

/-- Claim C8: generated identifiers are never changed by later writes: a
client save with a nonempty `client_id` leaves it unchanged, and a shipment
save with a truthy `claim_id` (respectively `client_reference`) leaves that
field unchanged. -/
theorem generated_ids_never_overwritten (cdb : List ClientRow) (c : ClientRow)
    (db : List Shipment) (today : String) (s : Shipment) :
    (c.client_id ≠ "" → clientSave cdb c = .ok c) ∧
    (optFalsy s.claim_id = false →
      (shipmentApplySave db today s).claim_id = s.claim_id) ∧
    (optFalsy s.client_reference = false →
      (shipmentApplySave db today s).client_reference = s.client_reference) := by
  refine ⟨?_, ?_, ?_⟩
  · intro h
    unfold clientSave
    rw [if_neg h]
  · intro h
    have : (shipmentApplySave db today s).claim_id =
        (saveStep1 db s).claim_id := by
      show (saveStep4 (saveStep3 (saveStep2 db today (saveStep1 db s)))).claim_id = _
      rw [saveStep4_claim_id, saveStep3_claim_id, saveStep2_claim_id]
    rw [this, saveStep1_claim_id_of_truthy db s h]
  · intro h
    have : (shipmentApplySave db today s).client_reference =
        (saveStep2 db today (saveStep1 db s)).client_reference := by
      show (saveStep4 (saveStep3 (saveStep2 db today (saveStep1 db s)))).client_reference = _
      rw [saveStep4_client_reference, saveStep3_client_reference]
    rw [this, saveStep2_reference_of_truthy db today _ (by simpa using h),
      saveStep1_client_reference]

/-- Claim C8, witness at a concrete client and shipment with pre-set
identifiers. -/
theorem generated_ids_never_overwritten_witness :
    clientSave [] presetClient = .ok presetClient ∧
    (shipmentApplySave [] "20250601" presetShipment).claim_id =
      presetShipment.claim_id ∧
    (shipmentApplySave [] "20250601" presetShipment).client_reference =
      presetShipment.client_reference := by
  obtain ⟨g1, g2, g3⟩ :=
    generated_ids_never_overwritten [] presetClient [] "20250601" presetShipment
  exact ⟨g1 (by decide), g2 (by decide), g3 (by decide)⟩

/-- Claim C9: when the claimed amount and the three payment fields are
non-negative, no save ever assigns `NOT_SETTLED`: the status is either left
exactly as it was, or set to SETTLED or PARTIAL. -/
theorem not_settled_branch_unreachable (db : List Shipment) (today : String)
    (s : Shipment)
    (hc : 0 ≤ s.Claimed_Amount.getD 0)
    (h1 : 0 ≤ s.Amount_Paid_By_Carrier.getD 0)
    (h2 : 0 ≤ s.Amount_Paid_By_Awa.getD 0)
    (h3 : 0 ≤ s.Amount_Paid_By_Insurance.getD 0) :
    (shipmentApplySave db today s).Settlement_Status = s.Settlement_Status ∨
    (shipmentApplySave db today s).Settlement_Status = some "SETTLED" ∨
    (shipmentApplySave db today s).Settlement_Status = some "PARTIAL" := by
  have htot : 0 ≤ total_amount_paid s := by
    unfold total_amount_paid
    exact add_nonneg (add_nonneg h1 h2) h3
  have e1 : (saveStep3 (saveStep2 db today (saveStep1 db s))).Settlement_Status =
      s.Settlement_Status := by simp
  have e2 : total_amount_paid (saveStep3 (saveStep2 db today (saveStep1 db s))) =
      total_amount_paid s := by simp
  by_cases hguard : qtruthy (saveStep3 (saveStep2 db today (saveStep1 db s))).Claimed_Amount
      = true ∧ total_amount_paid (saveStep3 (saveStep2 db today (saveStep1 db s))) ≠ 0
  · have hne : total_amount_paid s ≠ 0 := by
      rw [← e2]
      exact hguard.2
    have hpos : 0 < total_amount_paid s := lt_of_le_of_ne htot (Ne.symm hne)
    by_cases hge : total_amount_paid (saveStep3 (saveStep2 db today (saveStep1 db s))) ≥
        (saveStep3 (saveStep2 db today (saveStep1 db s))).Claimed_Amount.getD 0
    · right; left
      exact saveStep4_settled _ hguard.1 hguard.2 hge
    · right; right
      refine saveStep4_partial_case _ hguard.1 hguard.2 hge ?_
      rw [e2]
      exact hpos
  · left
    have : (shipmentApplySave db today s).Settlement_Status =
        (saveStep4 (saveStep3 (saveStep2 db today (saveStep1 db s)))).Settlement_Status :=
      rfl
    rw [this, saveStep4_of_guard_false _ hguard, e1]

/-- Claim C9, witness at a concrete non-negative shipment. -/
theorem not_settled_branch_unreachable_witness :
    (shipmentApplySave [] "20250601" settledInput).Settlement_Status =
      settledInput.Settlement_Status ∨
    (shipmentApplySave [] "20250601" settledInput).Settlement_Status = some "SETTLED" ∨
    (shipmentApplySave [] "20250601" settledInput).Settlement_Status = some "PARTIAL" :=
  not_settled_branch_unreachable [] "20250601" settledInput
    (by decide) (by decide) (by decide) (by decide)

/-- Claim C10: whenever the newest shipment row has a null/empty `claim_id`
or one whose suffix after `CLM` does not parse as an integer,
`get_next_claim_id` returns `CLM000001` regardless of every earlier row. -/
theorem claim_id_fallback_ignores_earlier_rows (s : Shipment)
    (rest : List Shipment)
    (h : optFalsy s.claim_id = true ∨ pyInt (pySlice (s.claim_id.getD "") 3) = none) :
    get_next_claim_id (s :: rest) = "CLM000001" := by
  unfold get_next_claim_id
  simp only [List.head?_cons]
  rcases h with h | h
  · rw [if_pos h]
  · split
    · rfl
    · rw [h]

/-- Claim C10, witness: a newest row with null `claim_id` in front of a row
already using `CLM000001`, exhibiting the possible collision. -/
theorem claim_id_fallback_ignores_earlier_rows_witness :
    get_next_claim_id [nullIdShipment, baseShipment] = "CLM000001" ∧
    some "CLM000001" ∈ [nullIdShipment, baseShipment].map (fun s => s.claim_id) :=
  ⟨claim_id_fallback_ignores_earlier_rows nullIdShipment [baseShipment]
    (Or.inl (by decide)), by decide⟩
